import Mathlib

/-!
Shallow embedding of the credential and session lifecycle core of the
secureshop-ecommerce repository.

Sources embedded here:
- src/backend/src/routes/user.routes.ts (passwordConfig, jwtConfig, cookieConfig)
- src/backend/src/utils/redis.ts (checkRateLimit, session helpers)
- src/unnamed/part_008 (token generation and verification, blacklistSession,
  isSessionBlacklisted, authenticate, optionalAuth)
- src/unnamed/part_006 (login, refreshToken, logout handlers)

Conventions of the embedding:
- Wall-clock time is an explicit natural number of milliseconds passed to each
  operation (the source calls Date.now() and new Date()).
- The single Redis keyspace is split into its three disjoint key prefixes
  (session:/blacklist:session:/ratelimit:), each modelled as an association
  list from the key suffix to a value together with an absolute expiry
  timestamp in milliseconds; redis setex ttl seconds become now + ttl * 1000.
- bcrypt.hash is modelled as prepending a tag to the password, and
  bcrypt.compare as the corresponding equality test; the list of performed
  comparisons is part of each login result so that the dummy comparison on
  the unknown-email path is observable.
- randomUUID is modelled by a fresh-name counter carried in the state.
- jwt signing and verification are modelled by a token record carrying its
  payload, its kind (which secret signed it), its absolute expiry and a flag
  saying whether the signature, issuer and audience checks pass.
-/

deriving instance DecidableEq for Except

namespace SecureShop

/-! ## Generic association-list store operations (redis keyspace model) -/

def lookup {κ α : Type} [BEq κ] (l : List (κ × α)) (k : κ) : Option α :=
  (l.find? (fun e => e.1 == k)).map (fun e => e.2)

def setKey {κ α : Type} [BEq κ] (l : List (κ × α)) (k : κ) (v : α) :
    List (κ × α) :=
  (k, v) :: l.filter (fun e => e.1 != k)

def delKey {κ α : Type} [BEq κ] (l : List (κ × α)) (k : κ) : List (κ × α) :=
  l.filter (fun e => e.1 != k)

/-! ## Configuration (src/backend/src/routes/user.routes.ts) -/

structure PasswordConfig where
  minLength : Nat
  bcryptRounds : Nat
  maxLoginAttempts : Nat
  lockoutDuration : Nat
  deriving Repr, DecidableEq

/-- passwordConfig from user.routes.ts lines 488-497 (lockoutDuration in ms). -/
def passwordConfig : PasswordConfig :=
  { minLength := 12
    bcryptRounds := 12
    maxLoginAttempts := 5
    lockoutDuration := 30 * 60 * 1000 }

/-- Access token lifetime: 15 minutes (jwtConfig default, in ms). -/
def accessTokenExpiryMs : Nat := 15 * 60 * 1000

/-- Refresh token lifetime: 7 days (jwtConfig default, in ms). -/
def refreshTokenExpiryMs : Nat := 7 * 24 * 60 * 60 * 1000

/-! ## Data model -/

/-- The account row selected by the login and authenticate handlers. -/
structure User where
  id : Nat
  email : String
  passwordHash : String
  role : String
  firstName : String
  lastName : String
  isActive : Bool
  lockedUntil : Option Nat
  failedLoginAttempts : Nat
  emailVerified : Bool
  lastLoginAt : Option Nat
  deriving Repr, DecidableEq

/-- Session metadata stored under session:(id) by login and refresh. -/
structure SessionData where
  userId : Nat
  createdAt : Nat
  ip : String
  userAgent : String
  deriving Repr, DecidableEq

/-- The three redis key prefixes used by the auth core, split by prefix. -/
structure Store where
  sessions : List (String × (SessionData × Nat))
  blacklist : List (String × Nat)
  rate : List (String × (Nat × Option Nat))
  deriving Repr, DecidableEq

def Store.empty : Store := { sessions := [], blacklist := [], rate := [] }

/-- Whole mutable state visible to the auth handlers: the user table, the
redis stores, and the fresh-name counter standing in for randomUUID. -/
structure AuthState where
  users : List User
  store : Store
  nextId : Nat
  deriving Repr, DecidableEq

def findByEmail (users : List User) (email : String) : Option User :=
  users.find? (fun u => u.email == email)

def findById (users : List User) (id : Nat) : Option User :=
  users.find? (fun u => u.id == id)

def updateUser (users : List User) (id : Nat) (f : User → User) : List User :=
  users.map (fun u => if u.id == id then f u else u)

/-- Model of bcrypt.hash at a fixed cost factor. -/
def bcryptHash (password : String) : String := "bcrypt$" ++ password

/-- Model of bcrypt.compare password hash. -/
def bcryptCompare (password hash : String) : Bool :=
  hash == bcryptHash password

/-- The constant dummy hash compared against on the unknown-email path
(part_006 line 949). -/
def dummyHash : String := "$2a$12$dummy.hash.for.timing.attack.prevention"

/-- lockedUntil && lockedUntil > new Date() (part_006 line 954 and
part_008 line 157). -/
def isCurrentlyLocked (lockedUntil : Option Nat) (now : Nat) : Bool :=
  match lockedUntil with
  | some e => decide (now < e)
  | none => false

/-! ## Tokens (part_008 lines 29-66) -/

structure TokenPayload where
  userId : Nat
  email : String
  role : String
  sessionId : String
  deriving Repr, DecidableEq

inductive TokenKind
  | access
  | refresh
  deriving Repr, DecidableEq

/-- A signed jwt, reconstructed from its claims: payload, the kind whose
secret signed it, absolute expiry in ms, and whether signature, issuer and
audience verify. -/
structure Token where
  payload : TokenPayload
  kind : TokenKind
  exp : Nat
  sigValid : Bool
  deriving Repr, DecidableEq

inductive VerifyError
  | tokenExpiredError
  | jsonWebTokenError
  deriving Repr, DecidableEq

/-- jwt.verify with the kind-specific secret, issuer and audience
(part_008 lines 51-66): a token signed with the other secret or a bad
signature fails as JsonWebTokenError, one past its expiry as
TokenExpiredError. -/
def verifyToken (expected : TokenKind) (now : Nat) (t : Token) :
    Except VerifyError TokenPayload :=
  if !t.sigValid || t.kind != expected then .error .jsonWebTokenError
  else if t.exp ≤ now then .error .tokenExpiredError
  else .ok t.payload

/-- generateAccessToken (part_008 lines 29-35). -/
def generateAccessToken (p : TokenPayload) (now : Nat) : Token :=
  { payload := p, kind := .access, exp := now + accessTokenExpiryMs,
    sigValid := true }

/-- generateRefreshToken (part_008 lines 40-46). -/
def generateRefreshToken (p : TokenPayload) (now : Nat) : Token :=
  { payload := p, kind := .refresh, exp := now + refreshTokenExpiryMs,
    sigValid := true }

/-- randomUUID modelled by a deterministic fresh-name supply. -/
def freshSessionId (n : Nat) : String := "sess-" ++ toString n

/-! ## Session registry and revocation ledger operations -/

/-- redis.setex session:(sid) ttl data. -/
def sessionSetex (st : Store) (now ttlSeconds : Nat) (sid : String)
    (d : SessionData) : Store :=
  { st with sessions := setKey st.sessions sid (d, now + ttlSeconds * 1000) }

/-- redis.get session:(sid): an entry past its ttl reads as absent. -/
def sessionGet (st : Store) (now : Nat) (sid : String) : Option SessionData :=
  match lookup st.sessions sid with
  | some (d, e) => if now < e then some d else none
  | none => none

/-- redis.del session:(sid). -/
def sessionDel (st : Store) (sid : String) : Store :=
  { st with sessions := delKey st.sessions sid }

/-- blacklistSession (part_008 lines 99-104), default ttl 7 days. -/
def blacklistSession (st : Store) (now : Nat) (sid : String)
    (ttlSeconds : Nat) : Store :=
  { st with blacklist := setKey st.blacklist sid (now + ttlSeconds * 1000) }

/-- isSessionBlacklisted (part_008 lines 91-94). -/
def isSessionBlacklisted (st : Store) (now : Nat) (sid : String) : Bool :=
  match lookup st.blacklist sid with
  | some e => decide (now < e)
  | none => false

/-! ## Rate limiter (src/backend/src/utils/redis.ts lines 142-170) -/

structure RateLimitResult where
  allowed : Bool
  remaining : Nat
  resetAt : Nat
  deriving Repr, DecidableEq

/-- The live (not yet expired) rate counter entry for a key, as redis would
report it: count and optional absolute expiry. -/
def rateLive (st : Store) (now : Nat) (key : String) :
    Option (Nat × Option Nat) :=
  match lookup st.rate key with
  | some (c, some e) => if now < e then some (c, some e) else none
  | some (c, none) => some (c, none)
  | none => none

/-- The live counter value for a key, zero when absent or expired. -/
def rateCount (st : Store) (now : Nat) (key : String) : Nat :=
  match rateLive st now key with
  | some p => p.1
  | none => 0

/-- The absolute expiry the counter carries after the increment: kept when
the live entry already had one (incr preserves a ttl), otherwise set by the
expire call issued when ttl reported -1 (first increment of a window, or an
entry that never got its expire). The resetAt reported to the caller is the
same timestamp: now + (ttl greater than 0 then ttl else window) seconds. -/
def rateNewExpiry (st : Store) (now : Nat) (key : String)
    (windowSeconds : Nat) : Nat :=
  match rateLive st now key with
  | some (_, some e) => e
  | _ => now + windowSeconds * 1000

/-- checkRateLimit: multi incr + ttl; expire windowSeconds is applied only
when ttl reported -1 (first increment of a window); allowed iff the
post-increment count is at most maxAttempts; remaining is clamped at 0. -/
def checkRateLimit (st : Store) (now : Nat) (key : String)
    (maxAttempts windowSeconds : Nat) : RateLimitResult × Store :=
  let count := rateCount st now key + 1
  ({ allowed := count ≤ maxAttempts
     remaining := maxAttempts - count
     resetAt := rateNewExpiry st now key windowSeconds },
   { st with
     rate := setKey st.rate key
       (count, some (rateNewExpiry st now key windowSeconds)) })

/-! ## Error taxonomy as materialized by the handlers -/

/-- AppError (message, http status, machine-readable code). -/
structure AppError where
  message : String
  statusCode : Nat
  code : String
  deriving Repr, DecidableEq

/-- The deliberately generic credential error (part_006 lines 941-945). -/
def genericLoginError : AppError :=
  { message := "Invalid email or password", statusCode := 401,
    code := "INVALID_CREDENTIALS" }

/-- The rate-limit rejection thrown by login (part_006 lines 916-920). -/
def rateLimitedError : AppError :=
  { message := "Too many login attempts. Please try again later.",
    statusCode := 429, code := "RATE_LIMITED" }

/-- A failure escaping a handler: either a thrown AppError, a raw jwt
verification error, or a store/infrastructure exception. -/
inductive AuthFailure
  | appError (e : AppError)
  | jwtError (e : VerifyError)
  | storeFailure
  deriving Repr, DecidableEq

/-! ## Login handler (part_006 lines 902-1067) -/

/-- The response body of a successful login: the selected user fields plus
the issued pair and its session id. -/
structure LoginOk where
  userId : Nat
  email : String
  role : String
  sessionId : String
  accessToken : Token
  refreshToken : Token
  deriving Repr, DecidableEq

structure LoginResult where
  result : Except AppError LoginOk
  state : AuthState
  compares : List (String × String)
  deriving Repr, DecidableEq

/-- The rate-limit key for login: login:(ip):(email) (part_006 line 907). -/
def rateLimitKeyLogin (ip email : String) : String :=
  "login:" ++ ip ++ ":" ++ email

/-- The login handler. compares records every bcrypt.compare performed, as
(password, hash) in order, so dummy comparisons are observable. -/
def login (emailArg password : String) (rememberMe : Bool)
    (clientIp userAgent : String) (now : Nat) (s : AuthState) : LoginResult :=
  let rlPair := checkRateLimit s.store now
    (rateLimitKeyLogin clientIp emailArg) 5 (15 * 60)
  let s1 : AuthState := { s with store := rlPair.2 }
  if !rlPair.1.allowed then
    { result := .error rateLimitedError, state := s1, compares := [] }
  else
    match findByEmail s1.users emailArg with
    | none =>
      { result := .error genericLoginError, state := s1,
        compares := [(password, dummyHash)] }
    | some user =>
      if isCurrentlyLocked user.lockedUntil now then
        { result := .error
            { message := "Account is temporarily locked. Please try again later."
              statusCode := 403, code := "ACCOUNT_LOCKED" }
          state := s1, compares := [] }
      else if !user.isActive then
        { result := .error
            { message := "Account is deactivated", statusCode := 403,
              code := "ACCOUNT_DEACTIVATED" }
          state := s1, compares := [] }
      else if !bcryptCompare password user.passwordHash then
        let failedAttempts := user.failedLoginAttempts + 1
        let shouldLock := failedAttempts ≥ passwordConfig.maxLoginAttempts
        let users2 := updateUser s1.users user.id (fun u =>
          { u with
            failedLoginAttempts := failedAttempts
            lockedUntil :=
              if shouldLock then some (now + passwordConfig.lockoutDuration)
              else none })
        { result := .error genericLoginError
          state := { s1 with users := users2 }
          compares := [(password, user.passwordHash)] }
      else
        let users2 :=
          if user.failedLoginAttempts > 0 then
            updateUser s1.users user.id (fun u =>
              { u with failedLoginAttempts := 0, lockedUntil := none })
          else s1.users
        let sessionId := freshSessionId s1.nextId
        let payload : TokenPayload :=
          { userId := user.id, email := user.email, role := user.role,
            sessionId := sessionId }
        let accessToken := generateAccessToken payload now
        let refreshTok := generateRefreshToken payload now
        let store2 := sessionSetex s1.store now
          (if rememberMe then 30 * 24 * 60 * 60 else 24 * 60 * 60)
          sessionId
          { userId := user.id, createdAt := now, ip := clientIp,
            userAgent := userAgent }
        let users3 := updateUser users2 user.id (fun u =>
          { u with lastLoginAt := some now })
        { result := .ok
            { userId := user.id, email := user.email, role := user.role,
              sessionId := sessionId, accessToken := accessToken,
              refreshToken := refreshTok }
          state := { users := users3, store := store2, nextId := s1.nextId + 1 }
          compares := [(password, user.passwordHash)] }

/-! ## Refresh handler (part_006 lines 1073-1135) -/

structure RefreshOk where
  sessionId : String
  accessToken : Token
  refreshToken : Token
  deriving Repr, DecidableEq

structure RefreshResult where
  result : Except AuthFailure RefreshOk
  state : AuthState
  cookiesCleared : Bool
  deriving Repr, DecidableEq

/-- The refresh handler: verify the refresh cookie, require the session to
still exist, require the user active, then rotate: mint a pair under a
fresh session id, delete the old registry entry and store the new one. -/
def refreshToken (cookieRefreshToken : Option Token)
    (clientIp userAgent : String) (now : Nat) (s : AuthState) :
    RefreshResult :=
  match cookieRefreshToken with
  | none =>
    { result := .error (.appError
        { message := "Refresh token not provided", statusCode := 401,
          code := "NO_REFRESH_TOKEN" })
      state := s, cookiesCleared := false }
  | some token =>
    match verifyToken .refresh now token with
    | .error e =>
      { result := .error (.jwtError e), state := s, cookiesCleared := false }
    | .ok payload =>
      match sessionGet s.store now payload.sessionId with
      | none =>
        { result := .error (.appError
            { message := "Session expired", statusCode := 401,
              code := "SESSION_EXPIRED" })
          state := s, cookiesCleared := true }
      | some _ =>
        match findById s.users payload.userId with
        | none =>
          { result := .error (.appError
              { message := "User not found or inactive", statusCode := 401,
                code := "USER_INVALID" })
            state := s, cookiesCleared := true }
        | some user =>
          if !user.isActive then
            { result := .error (.appError
                { message := "User not found or inactive", statusCode := 401,
                  code := "USER_INVALID" })
              state := s, cookiesCleared := true }
          else
            let newSessionId := freshSessionId s.nextId
            let newPayload : TokenPayload :=
              { userId := user.id, email := user.email, role := user.role,
                sessionId := newSessionId }
            let newAccessToken := generateAccessToken newPayload now
            let newRefreshToken := generateRefreshToken newPayload now
            let store2 := sessionSetex (sessionDel s.store payload.sessionId)
              now (7 * 24 * 60 * 60) newSessionId
              { userId := user.id, createdAt := now, ip := clientIp,
                userAgent := userAgent }
            { result := .ok
                { sessionId := newSessionId, accessToken := newAccessToken,
                  refreshToken := newRefreshToken }
              state := { users := s.users, store := store2,
                         nextId := s.nextId + 1 }
              cookiesCleared := false }

/-! ## Logout handler (part_006 lines 1141-1167) -/

/-- The logout handler: on a verifiable refresh cookie, blacklist the
session (7 day ttl) and delete its registry entry; always clear cookies and
report success. Returns the new state and the cookies-cleared flag. -/
def logout (cookieRefreshToken : Option Token) (now : Nat) (s : AuthState) :
    AuthState × Bool :=
  match cookieRefreshToken with
  | none => (s, true)
  | some token =>
    match verifyToken .refresh now token with
    | .error _ => (s, true)
    | .ok payload =>
      let store1 := blacklistSession s.store now payload.sessionId
        (7 * 24 * 60 * 60)
      let store2 := sessionDel store1 payload.sessionId
      ({ s with store := store2 }, true)

/-! ## Request middleware (part_008 lines 111-238) -/

/-- The identity attached to req.user. -/
structure Identity where
  id : Nat
  email : String
  role : String
  deriving Repr, DecidableEq

/-- Outcome of a middleware run: next() with no error, or next(error); plus
the attached identity and whether the auth cookies were cleared. -/
structure MWResult where
  outcome : Except AuthFailure Unit
  reqUser : Option Identity
  cookiesCleared : Bool
  deriving Repr, DecidableEq

/-- The authenticate middleware. redisFault and dbFault inject a thrown
store error at the corresponding await; the catch block converts only jwt
errors, so a store error is passed to next(error) and rejects the
request. -/
def authenticate (cookieToken bearerToken : Option Token)
    (redisFault dbFault : Bool) (now : Nat) (s : AuthState) : MWResult :=
  let token := match cookieToken with
    | some t => some t
    | none => bearerToken
  match token with
  | none =>
    { outcome := .error (.appError
        { message := "Authentication required", statusCode := 401,
          code := "UNAUTHORIZED" })
      reqUser := none, cookiesCleared := false }
  | some t =>
    match verifyToken .access now t with
    | .error .tokenExpiredError =>
      { outcome := .error (.appError
          { message := "Token expired. Please log in again.",
            statusCode := 401, code := "TOKEN_EXPIRED" })
        reqUser := none, cookiesCleared := true }
    | .error .jsonWebTokenError =>
      { outcome := .error (.appError
          { message := "Invalid token", statusCode := 401,
            code := "INVALID_TOKEN" })
        reqUser := none, cookiesCleared := true }
    | .ok payload =>
      if redisFault then
        { outcome := .error .storeFailure, reqUser := none,
          cookiesCleared := false }
      else if isSessionBlacklisted s.store now payload.sessionId then
        { outcome := .error (.appError
            { message := "Session expired. Please log in again.",
              statusCode := 401, code := "SESSION_EXPIRED" })
          reqUser := none, cookiesCleared := true }
      else if dbFault then
        { outcome := .error .storeFailure, reqUser := none,
          cookiesCleared := false }
      else
        match findById s.users payload.userId with
        | none =>
          { outcome := .error (.appError
              { message := "User not found", statusCode := 401,
                code := "USER_NOT_FOUND" })
            reqUser := none, cookiesCleared := false }
        | some user =>
          if !user.isActive then
            { outcome := .error (.appError
                { message := "Account is deactivated", statusCode := 403,
                  code := "ACCOUNT_DEACTIVATED" })
              reqUser := none, cookiesCleared := false }
          else if isCurrentlyLocked user.lockedUntil now then
            { outcome := .error (.appError
                { message := "Account is temporarily locked",
                  statusCode := 403, code := "ACCOUNT_LOCKED" })
              reqUser := none, cookiesCleared := false }
          else
            { outcome := .ok ()
              reqUser := some
                { id := user.id, email := user.email, role := user.role }
              cookiesCleared := false }

/-- The optionalAuth middleware: only the cookie transport, a catch-all
that turns every throw (jwt or store error) into a plain next(), no lockout
check, and an identity attached only when the token verifies, the session
is not blacklisted and the account exists and is active. -/
def optionalAuth (cookieToken : Option Token) (redisFault dbFault : Bool)
    (now : Nat) (s : AuthState) : MWResult :=
  match cookieToken with
  | none => { outcome := .ok (), reqUser := none, cookiesCleared := false }
  | some t =>
    match verifyToken .access now t with
    | .error _ =>
      { outcome := .ok (), reqUser := none, cookiesCleared := false }
    | .ok payload =>
      if redisFault then
        { outcome := .ok (), reqUser := none, cookiesCleared := false }
      else if isSessionBlacklisted s.store now payload.sessionId then
        { outcome := .ok (), reqUser := none, cookiesCleared := true }
      else if dbFault then
        { outcome := .ok (), reqUser := none, cookiesCleared := false }
      else
        match findById s.users payload.userId with
        | some user =>
          if user.isActive then
            { outcome := .ok ()
              reqUser := some
                { id := user.id, email := user.email, role := user.role }
              cookiesCleared := false }
          else
            { outcome := .ok (), reqUser := none, cookiesCleared := false }
        | none =>
          { outcome := .ok (), reqUser := none, cookiesCleared := false }

/-! ## Interleaving model of the failed-login counter update

The wrong-password branch of login (part_006 lines 975-988) reads the
account row with prisma.user.findUnique and later writes back
failedLoginAttempts := readValue + 1 computed in application code. Each
request therefore performs two separate atomic store actions: the read and
the write. This sub-model makes that interleaving explicit for the
lockout-concurrency claim. -/

namespace Conc

/-- The two account columns touched by the lockout logic. -/
structure AccountRow where
  failedLoginAttempts : Nat
  lockedUntil : Option Nat
  deriving Repr, DecidableEq

/-- One atomic store action of request i on the shared account row. -/
inductive Ev
  | read (i : Nat)
  | write (i : Nat)
  deriving Repr, DecidableEq

/-- The locked check of part_006 line 954, applied by request i to the row
value it read. -/
def lockCheckRejects (row : AccountRow) (now : Nat) : Bool :=
  isCurrentlyLocked row.lockedUntil now

/-- The prisma.user.update of part_006 lines 980-988, with the new counter
computed from the snapshot the request read (read-modify-write). -/
def failedWrite (snap : AccountRow) (now : Nat) : AccountRow :=
  let failedAttempts := snap.failedLoginAttempts + 1
  let shouldLock := failedAttempts ≥ passwordConfig.maxLoginAttempts
  { failedLoginAttempts := failedAttempts
    lockedUntil :=
      if shouldLock then some (now + passwordConfig.lockoutDuration)
      else none }

/-- Shared row plus the per-request snapshots taken by completed reads. -/
structure ConcState where
  db : AccountRow
  snaps : List (Nat × AccountRow)
  deriving Repr, DecidableEq

def initState : ConcState := { db := { failedLoginAttempts := 0, lockedUntil := none }, snaps := [] }

/-- One store action: a read snapshots the current row for its request; a
write replays the rest of the wrong-password branch on that snapshot: it is
dropped when the snapshot already showed a live lock, otherwise it stores
the counter computed from the snapshot. -/
def step (now : Nat) (st : ConcState) : Ev → ConcState
  | .read i => { st with snaps := (i, st.db) :: st.snaps }
  | .write i =>
    match lookup st.snaps i with
    | some snap =>
      if lockCheckRejects snap now then st
      else { st with db := failedWrite snap now }
    | none => st

def run (now : Nat) (st : ConcState) (sched : List Ev) : ConcState :=
  sched.foldl (step now) st

/-- The fully serialized schedule of K wrong-password requests. -/
def serialSched : Nat → List Ev
  | 0 => []
  | n + 1 => serialSched n ++ [.read (n + 1), .write (n + 1)]

/-- The fully overlapped schedule: all K reads, then all K writes. -/
def overlappedSched (k : Nat) : List Ev :=
  ((List.range k).map (fun i => Ev.read (i + 1))) ++
    ((List.range k).map (fun i => Ev.write (i + 1)))

end Conc

/-! ## Helper lemmas about the store operations -/

theorem lookup_cons {κ α : Type} [BEq κ] (hd : κ × α) (tl : List (κ × α))
    (k : κ) :
    lookup (hd :: tl) k = if hd.1 == k then some hd.2 else lookup tl k := by
  simp only [lookup, List.find?]
  by_cases h : (hd.1 == k) = true
  · simp [h]
  · simp only [Bool.not_eq_true] at h
    simp [h]

theorem lookup_filter_ne {κ α : Type} [BEq κ] [LawfulBEq κ]
    (l : List (κ × α)) (k k' : κ) :
    lookup (l.filter (fun e => e.1 != k)) k' =
      if k' == k then none else lookup l k' := by
  induction l with
  | nil => simp [lookup]
  | cons hd tl ih =>
    rw [List.filter_cons]
    by_cases hh : hd.1 = k
    · have hb : (hd.1 != k) = false := by simp [bne, hh]
      rw [hb, if_neg (by simp)]
      rw [ih, lookup_cons]
      by_cases hk : k' = k
      · simp [hk]
      · have h1 : (k' == k) = false := by simp [hk]
        have h2 : (hd.1 == k') = false := by
          subst hh
          simp [beq_eq_false_iff_ne]
          exact fun he => hk he.symm
        simp [h1, h2]
    · have hb : (hd.1 != k) = true := by simp [bne, hh]
      rw [hb, if_pos rfl, lookup_cons, lookup_cons, ih]
      by_cases hk' : hd.1 = k'
      · have h2 : (hd.1 == k') = true := by simp [hk']
        have h1 : (k' == k) = false := by
          simp [beq_eq_false_iff_ne]
          intro he; exact hh (hk' ▸ he)
        simp [h1, h2]
      · have h2 : (hd.1 == k') = false := by simp [beq_eq_false_iff_ne, hk']
        simp [h2]

theorem lookup_setKey_self {κ α : Type} [BEq κ] [LawfulBEq κ]
    (l : List (κ × α)) (k : κ) (v : α) : lookup (setKey l k v) k = some v := by
  simp [setKey, lookup_cons]

theorem lookup_setKey_ne {κ α : Type} [BEq κ] [LawfulBEq κ]
    (l : List (κ × α)) (k k' : κ) (v : α) (h : k' ≠ k) :
    lookup (setKey l k v) k' = lookup l k' := by
  rw [setKey, lookup_cons, lookup_filter_ne]
  have h1 : (k == k') = false := by
    simp [beq_eq_false_iff_ne]; exact fun he => h he.symm
  have h2 : (k' == k) = false := by simp [beq_eq_false_iff_ne, h]
  simp [h1, h2]

theorem lookup_delKey_self {κ α : Type} [BEq κ] [LawfulBEq κ]
    (l : List (κ × α)) (k : κ) : lookup (delKey l k) k = none := by
  rw [delKey, lookup_filter_ne]
  simp

theorem lookup_delKey_ne {κ α : Type} [BEq κ] [LawfulBEq κ]
    (l : List (κ × α)) (k k' : κ) (h : k' ≠ k) :
    lookup (delKey l k) k' = lookup l k' := by
  rw [delKey, lookup_filter_ne]
  have h2 : (k' == k) = false := by simp [beq_eq_false_iff_ne, h]
  simp [h2]

/-! ## Branch lemmas for the login handler -/


theorem login_rate_rejected (emailArg pw : String) (rm : Bool) (ip ua : String)
    (now : Nat) (s : AuthState)
    (hRate : ¬ (rateCount s.store now (rateLimitKeyLogin ip emailArg) + 1 ≤ 5)) :
    login emailArg pw rm ip ua now s =
      { result := .error rateLimitedError
        state := { s with store := { s.store with
          rate := setKey s.store.rate (rateLimitKeyLogin ip emailArg)
            (rateCount s.store now (rateLimitKeyLogin ip emailArg) + 1,
             some (rateNewExpiry s.store now (rateLimitKeyLogin ip emailArg) (15 * 60))) } }
        compares := [] } := by
  simp [login, checkRateLimit, hRate]

theorem login_unknown_email (emailArg pw : String) (rm : Bool) (ip ua : String)
    (now : Nat) (s : AuthState)
    (hfind : findByEmail s.users emailArg = none)
    (hRate : rateCount s.store now (rateLimitKeyLogin ip emailArg) + 1 ≤ 5) :
    login emailArg pw rm ip ua now s =
      { result := .error genericLoginError
        state := { s with store := { s.store with
          rate := setKey s.store.rate (rateLimitKeyLogin ip emailArg)
            (rateCount s.store now (rateLimitKeyLogin ip emailArg) + 1,
             some (rateNewExpiry s.store now (rateLimitKeyLogin ip emailArg) (15 * 60))) } }
        compares := [(pw, dummyHash)] } := by
  simp [login, checkRateLimit, hRate, hfind]

theorem login_locked_rejected (pw : String) (rm : Bool) (ip ua : String)
    (now : Nat) (s : AuthState) (u : User)
    (hfind : findByEmail s.users u.email = some u)
    (hLock : isCurrentlyLocked u.lockedUntil now = true)
    (hRate : rateCount s.store now (rateLimitKeyLogin ip u.email) + 1 ≤ 5) :
    login u.email pw rm ip ua now s =
      { result := .error
          { message := "Account is temporarily locked. Please try again later."
            statusCode := 403, code := "ACCOUNT_LOCKED" }
        state := { s with store := { s.store with
          rate := setKey s.store.rate (rateLimitKeyLogin ip u.email)
            (rateCount s.store now (rateLimitKeyLogin ip u.email) + 1,
             some (rateNewExpiry s.store now (rateLimitKeyLogin ip u.email) (15 * 60))) } }
        compares := [] } := by
  simp [login, checkRateLimit, hRate, hfind, hLock]

theorem login_wrong_password (pw : String) (rm : Bool) (ip ua : String)
    (now : Nat) (s : AuthState) (u : User)
    (hfind : findByEmail s.users u.email = some u)
    (hLock : isCurrentlyLocked u.lockedUntil now = false)
    (hA : u.isActive = true)
    (hW : bcryptCompare pw u.passwordHash = false)
    (hRate : rateCount s.store now (rateLimitKeyLogin ip u.email) + 1 ≤ 5) :
    login u.email pw rm ip ua now s =
      { result := .error genericLoginError
        state :=
          { users := updateUser s.users u.id (fun v =>
              { v with
                failedLoginAttempts := u.failedLoginAttempts + 1
                lockedUntil :=
                  if u.failedLoginAttempts + 1 ≥ passwordConfig.maxLoginAttempts
                  then some (now + passwordConfig.lockoutDuration) else none })
            store := { s.store with
              rate := setKey s.store.rate (rateLimitKeyLogin ip u.email)
                (rateCount s.store now (rateLimitKeyLogin ip u.email) + 1,
                 some (rateNewExpiry s.store now (rateLimitKeyLogin ip u.email) (15 * 60))) }
            nextId := s.nextId }
        compares := [(pw, u.passwordHash)] } := by
  simp [login, checkRateLimit, hRate, hfind, hLock, hA, hW]

theorem login_success (pw : String) (rm : Bool) (ip ua : String)
    (now : Nat) (s : AuthState) (u : User)
    (hfind : findByEmail s.users u.email = some u)
    (hLock : isCurrentlyLocked u.lockedUntil now = false)
    (hA : u.isActive = true)
    (hW : bcryptCompare pw u.passwordHash = true)
    (hRate : rateCount s.store now (rateLimitKeyLogin ip u.email) + 1 ≤ 5) :
    login u.email pw rm ip ua now s =
      { result := .ok
          { userId := u.id, email := u.email, role := u.role
            sessionId := freshSessionId s.nextId
            accessToken := generateAccessToken
              { userId := u.id, email := u.email, role := u.role,
                sessionId := freshSessionId s.nextId } now
            refreshToken := generateRefreshToken
              { userId := u.id, email := u.email, role := u.role,
                sessionId := freshSessionId s.nextId } now }
        state :=
          { users := updateUser
              (if u.failedLoginAttempts > 0 then
                updateUser s.users u.id (fun v =>
                  { v with failedLoginAttempts := 0, lockedUntil := none })
               else s.users)
              u.id (fun v => { v with lastLoginAt := some now })
            store :=
              sessionSetex
                { s.store with
                  rate := setKey s.store.rate (rateLimitKeyLogin ip u.email)
                    (rateCount s.store now (rateLimitKeyLogin ip u.email) + 1,
                     some (rateNewExpiry s.store now (rateLimitKeyLogin ip u.email) (15 * 60))) }
                now (if rm then 30 * 24 * 60 * 60 else 24 * 60 * 60)
                (freshSessionId s.nextId)
                { userId := u.id, createdAt := now, ip := ip, userAgent := ua }
            nextId := s.nextId + 1 }
        compares := [(pw, u.passwordHash)] } := by
  simp [login, checkRateLimit, hRate, hfind, hLock, hA, hW]

/-! ## Lockout iteration apparatus -/

theorem findByEmail_updateUser (l : List User) (id : Nat) (f : User → User)
    (hf : ∀ v, (f v).email = v.email) (em : String) :
    findByEmail (updateUser l id f) em =
      (findByEmail l em).map (fun u => if u.id == id then f u else u) := by
  unfold findByEmail updateUser
  rw [List.find?_map]
  have hp : ((fun u => u.email == em) ∘ fun u => if u.id == id then f u else u)
      = (fun u : User => u.email == em) := by
    funext v
    by_cases hid : v.id = id <;> simp [hid, hf]
  rw [hp]

/-- The account row as it stands after k consecutive wrong-password
attempts on a fresh account at time now. -/
def failedUserAfter (u : User) (now k : Nat) : User :=
  { u with
    failedLoginAttempts := k
    lockedUntil :=
      if k ≥ passwordConfig.maxLoginAttempts
      then some (now + passwordConfig.lockoutDuration) else none }

/-- The rate counter contents after k same-key login attempts at time now
starting from an empty store. -/
def failedRate (ip email : String) (now k : Nat) :
    List (String × (Nat × Option Nat)) :=
  if k = 0 then []
  else [(rateLimitKeyLogin ip email, (k, some (now + 900000)))]

/-- The full state after k consecutive wrong-password attempts at time now
starting from a single fresh account and an empty store. -/
def failedStateAfter (u : User) (ip : String) (now k : Nat) : AuthState :=
  { users := [failedUserAfter u now k]
    store := { sessions := [], blacklist := [], rate := failedRate ip u.email now k }
    nextId := 0 }

/-- n consecutive login attempts with one fixed credential at one time. -/
def iterLoginState (email pw ip ua : String) (now : Nat) :
    Nat → AuthState → AuthState
  | 0, s => s
  | n + 1, s => iterLoginState email pw ip ua now n
      (login email pw false ip ua now s).state

theorem failedStateAfter_zero (u : User) (ip : String) (now : Nat)
    (hC0 : u.failedLoginAttempts = 0) (hL0 : u.lockedUntil = none) :
    failedStateAfter u ip now 0 =
      { users := [u], store := Store.empty, nextId := 0 } := by
  simp [failedStateAfter, failedUserAfter, failedRate, Store.empty,
    passwordConfig]
  cases u
  simp_all

theorem login_wrong_iter_step (u : User) (pw ip ua : String) (now k : Nat)
    (hA : u.isActive = true) (hW : bcryptCompare pw u.passwordHash = false)
    (hk : k < 5) :
    login u.email pw false ip ua now (failedStateAfter u ip now k) =
      { result := .error genericLoginError
        state := failedStateAfter u ip now (k + 1)
        compares := [(pw, u.passwordHash)] } := by
  have hnk : ¬ (k ≥ passwordConfig.maxLoginAttempts) := by
    simp [passwordConfig]; omega
  have hfind : findByEmail (failedStateAfter u ip now k).users
      ((failedUserAfter u now k).email) = some (failedUserAfter u now k) := by
    simp [failedStateAfter, findByEmail, List.find?]
  have hLock : isCurrentlyLocked (failedUserAfter u now k).lockedUntil now
      = false := by
    simp [failedUserAfter, hnk, isCurrentlyLocked]
  have hA2 : (failedUserAfter u now k).isActive = true := by
    simp [failedUserAfter, hA]
  have hW2 : bcryptCompare pw (failedUserAfter u now k).passwordHash = false := by
    simp [failedUserAfter, bcryptCompare] at hW ⊢
    exact hW
  have hRC : rateCount (failedStateAfter u ip now k).store now
      (rateLimitKeyLogin ip (failedUserAfter u now k).email) = k := by
    rcases k with _ | k2
    · simp [failedStateAfter, failedRate, rateCount, rateLive, lookup]
    · simp [failedStateAfter, failedRate, rateCount, rateLive, lookup,
        List.find?, failedUserAfter]
  have hRate : rateCount (failedStateAfter u ip now k).store now
      (rateLimitKeyLogin ip (failedUserAfter u now k).email) + 1 ≤ 5 := by
    rw [hRC]; omega
  have hmain := login_wrong_password pw false ip ua now
    (failedStateAfter u ip now k) (failedUserAfter u now k)
    hfind hLock hA2 hW2 hRate
  have hem : (failedUserAfter u now k).email = u.email := rfl
  rw [hem] at hmain
  rw [hmain]
  clear hmain
  rcases k with _ | k2
  · simp [failedStateAfter, failedUserAfter, failedRate, updateUser,
      rateCount, rateLive, rateNewExpiry, lookup, setKey, passwordConfig,
      rateLimitKeyLogin]
  · simp [failedStateAfter, failedUserAfter, failedRate, updateUser,
      rateCount, rateLive, rateNewExpiry, lookup, setKey, List.find?,
      List.filter, passwordConfig, rateLimitKeyLogin]

theorem iterLoginState_wrong (u : User) (pw ip ua : String) (now : Nat)
    (hA : u.isActive = true) (hW : bcryptCompare pw u.passwordHash = false) :
    ∀ j k, k + j ≤ 5 →
      iterLoginState u.email pw ip ua now j (failedStateAfter u ip now k) =
        failedStateAfter u ip now (k + j)
  | 0, k, _ => by simp [iterLoginState]
  | j + 1, k, h => by
    rw [iterLoginState, login_wrong_iter_step u pw ip ua now k hA hW (by omega)]
    have := iterLoginState_wrong u pw ip ua now hA hW j (k + 1) (by omega)
    simpa [Nat.add_assoc, Nat.add_comm 1 j] using this

/-! ## Rate-limiter helper lemmas -/

theorem login_state_rate (emailArg pw : String) (rm : Bool) (ip ua : String)
    (now : Nat) (s : AuthState) :
    (login emailArg pw rm ip ua now s).state.store.rate =
      setKey s.store.rate (rateLimitKeyLogin ip emailArg)
        (rateCount s.store now (rateLimitKeyLogin ip emailArg) + 1,
         some (rateNewExpiry s.store now (rateLimitKeyLogin ip emailArg)
           (15 * 60))) := by
  simp only [login, checkRateLimit]
  split
  · rfl
  · split
    · rfl
    · split
      · rfl
      · split
        · rfl
        · split
          · rfl
          · simp [sessionSetex]

theorem rateCount_after_login (emailArg pw : String) (rm : Bool)
    (ip ua : String) (now : Nat) (s : AuthState) :
    rateCount (login emailArg pw rm ip ua now s).state.store now
        (rateLimitKeyLogin ip emailArg) =
      rateCount s.store now (rateLimitKeyLogin ip emailArg) + 1 := by
  have h := login_state_rate emailArg pw rm ip ua now s
  simp only [rateCount, rateLive]
  rw [h, lookup_setKey_self]
  have hlive : now < rateNewExpiry s.store now (rateLimitKeyLogin ip emailArg)
      (15 * 60) := by
    unfold rateNewExpiry
    unfold rateLive
    split
    · next heq =>
      split at heq
      · next c e _ =>
        split at heq
        · simp at heq
          omega
        · simp at heq
      · simp at heq
      · simp at heq
    · omega
  simp only [hlive, if_true]
  rfl

theorem login_not_ratelimited (emailArg pw : String) (rm : Bool)
    (ip ua : String) (now : Nat) (s : AuthState)
    (hRate : rateCount s.store now (rateLimitKeyLogin ip emailArg) + 1 ≤ 5) :
    (login emailArg pw rm ip ua now s).result ≠ .error rateLimitedError := by
  simp only [login, checkRateLimit]
  split
  · next h => simp [hRate] at h
  · split
    · simp [genericLoginError, rateLimitedError]
    · split
      · simp [rateLimitedError]
      · split
        · simp [rateLimitedError]
        · split
          · simp [genericLoginError, rateLimitedError]
          · simp



/-- foldl of login attempts sharing one credential transport. -/
def loginChain (emailArg ip ua : String) (now : Nat) (pws : List String)
    (s : AuthState) : AuthState :=
  pws.foldl (fun st pw => (login emailArg pw false ip ua now st).state) s

theorem rateCount_loginChain (emailArg ip ua : String) (now : Nat) :
    ∀ (pws : List String) (s : AuthState),
      rateCount (loginChain emailArg ip ua now pws s).store now
          (rateLimitKeyLogin ip emailArg) =
        rateCount s.store now (rateLimitKeyLogin ip emailArg) + pws.length
  | [], s => by simp [loginChain]
  | pw :: pws, s => by
    have h1 := rateCount_after_login emailArg pw false ip ua now s
    have h2 := rateCount_loginChain emailArg ip ua now pws
      (login emailArg pw false ip ua now s).state
    simp only [loginChain, List.foldl] at h2 ⊢
    rw [h2, h1]
    simp [List.length]
    omega

/-! ## Serialized interleaving of the lockout counter -/

theorem conc_serial_run (now : Nat) : ∀ K,
    (Conc.run now Conc.initState (Conc.serialSched K)).db =
      { failedLoginAttempts := min K 5
        lockedUntil :=
          if 5 ≤ K then some (now + passwordConfig.lockoutDuration)
          else none }
  | 0 => by simp [Conc.run, Conc.serialSched, Conc.initState]
  | n + 1 => by
    have ih := conc_serial_run now n
    rw [Conc.serialSched, Conc.run, List.foldl_append]
    rw [show List.foldl (Conc.step now) Conc.initState (Conc.serialSched n)
        = Conc.run now Conc.initState (Conc.serialSched n) from rfl]
    simp only [List.foldl, Conc.step, lookup_cons, beq_self_eq_true, if_true]
    rw [ih]
    by_cases h5 : 5 ≤ n
    · have hlock : Conc.lockCheckRejects
          { failedLoginAttempts := min n 5,
            lockedUntil := if 5 ≤ n then some (now + passwordConfig.lockoutDuration) else none } now = true := by
        simp [Conc.lockCheckRejects, isCurrentlyLocked, h5, passwordConfig]
      rw [hlock]
      simp only [if_true]
      have : min n 5 = 5 := by omega
      have h5s : 5 ≤ n + 1 := by omega
      simp [this, h5, h5s]
    · have hlock : Conc.lockCheckRejects
          { failedLoginAttempts := min n 5,
            lockedUntil := if 5 ≤ n then some (now + passwordConfig.lockoutDuration) else none } now = false := by
        simp [Conc.lockCheckRejects, isCurrentlyLocked, h5]
      rw [hlock]
      simp only [Bool.false_eq_true, if_false]
      simp [Conc.failedWrite, passwordConfig]
      omega




/-! ## Concrete fixtures used by counterexamples and witnesses -/

def aliceUser : User :=
  { id := 1, email := "alice@example.com"
    passwordHash := bcryptHash "CorrectHorse9"
    role := "CUSTOMER", firstName := "Alice", lastName := "Liddell"
    isActive := true, lockedUntil := none, failedLoginAttempts := 0
    emailVerified := true, lastLoginAt := none }

def baseState : AuthState :=
  { users := [aliceUser], store := Store.empty, nextId := 0 }

def sessAData : SessionData :=
  { userId := 1, createdAt := 0, ip := "ip0", userAgent := "ua0" }

/-- A refresh token bound to the live session sessA of the fixture state. -/
def refreshTokenA : Token :=
  { payload :=
      { userId := 1, email := "alice@example.com", role := "CUSTOMER",
        sessionId := "sessA" }
    kind := .refresh, exp := 1000000000, sigValid := true }

/-- An access token for the same session sessA. -/
def accessTokenA : Token :=
  { payload :=
      { userId := 1, email := "alice@example.com", role := "CUSTOMER",
        sessionId := "sessA" }
    kind := .access, exp := 1000000000, sigValid := true }

/-- Fixture state whose registry holds the live session sessA. -/
def sessAState : AuthState :=
  { users := [aliceUser]
    store := { sessions := [("sessA", (sessAData, 1000000000))],
               blacklist := [], rate := [] }
    nextId := 0 }

/-! ## C1: refresh rotation -/

/-- C1 counterexample. The claim states that a refresh call blacklists the
old session id in the Revocation Ledger and that the second use of the
original token fails through the blacklist (SessionRevoked). On the code,
the first refresh succeeds, yet the old session id sessA is NOT
blacklisted afterwards; the second refresh is rejected only because the
Session Registry entry was deleted, raising the registry-miss error
(code SESSION_EXPIRED, message Session expired), not a revocation
rejection. -/
theorem c1_counterexample :
    (refreshToken (some refreshTokenA) "ip1" "ua1" 1000 sessAState).result
      = .ok
        { sessionId := "sess-0"
          accessToken :=
            { payload := { userId := 1, email := "alice@example.com",
                           role := "CUSTOMER", sessionId := "sess-0" }
              kind := .access, exp := 901000, sigValid := true }
          refreshToken :=
            { payload := { userId := 1, email := "alice@example.com",
                           role := "CUSTOMER", sessionId := "sess-0" }
              kind := .refresh, exp := 604801000, sigValid := true } } ∧
    isSessionBlacklisted
      (refreshToken (some refreshTokenA) "ip1" "ua1" 1000 sessAState).state.store
      1000 "sessA" = false ∧
    (refreshToken (some refreshTokenA) "ip1" "ua1" 2000
        (refreshToken (some refreshTokenA) "ip1" "ua1" 1000 sessAState).state).result
      = .error (.appError
          { message := "Session expired", statusCode := 401,
            code := "SESSION_EXPIRED" }) := by
  decide

/-- C1 (amended): refresh rotation is single-use, but through registry
deletion, not blacklisting. For every valid refresh token whose session is
live in the registry and whose user is active, one refresh call issues
exactly one new access+refresh pair bound to a freshly generated session
id; in the same step the old session id is removed from the Session
Registry (its Revocation Ledger entry is NOT written: the blacklist is
unchanged) and the new session is stored; a second refresh call using the
original token fails with the registry-miss error SESSION_EXPIRED (the
code has no separate SessionRevoked error for this path) even though the
token expiry has not elapsed, clears the cookies, and leaves the state
unchanged, so no new session is created by the second call. -/
theorem c1_refresh_rotation (s : AuthState) (tRef : Token) (d : SessionData)
    (u : User) (ip ua ip2 ua2 : String) (now now2 : Nat)
    (hSig : tRef.sigValid = true) (hKind : tRef.kind = .refresh)
    (hExp : now < tRef.exp) (hExp2 : now2 < tRef.exp)
    (hSess : sessionGet s.store now tRef.payload.sessionId = some d)
    (hUser : findById s.users tRef.payload.userId = some u)
    (hAct : u.isActive = true)
    (hFresh : tRef.payload.sessionId ≠ freshSessionId s.nextId) :
    (refreshToken (some tRef) ip ua now s).result = .ok
      { sessionId := freshSessionId s.nextId
        accessToken := generateAccessToken
          { userId := u.id, email := u.email, role := u.role,
            sessionId := freshSessionId s.nextId } now
        refreshToken := generateRefreshToken
          { userId := u.id, email := u.email, role := u.role,
            sessionId := freshSessionId s.nextId } now } ∧
    sessionGet (refreshToken (some tRef) ip ua now s).state.store now
        tRef.payload.sessionId = none ∧
    (refreshToken (some tRef) ip ua now s).state.store.blacklist
      = s.store.blacklist ∧
    sessionGet (refreshToken (some tRef) ip ua now s).state.store now
        (freshSessionId s.nextId) =
      some { userId := u.id, createdAt := now, ip := ip, userAgent := ua } ∧
    (refreshToken (some tRef) ip2 ua2 now2
        (refreshToken (some tRef) ip ua now s).state) =
      { result := .error (.appError
          { message := "Session expired", statusCode := 401,
            code := "SESSION_EXPIRED" })
        state := (refreshToken (some tRef) ip ua now s).state
        cookiesCleared := true } := by
  have hver : ∀ n, n < tRef.exp →
      verifyToken .refresh n tRef = .ok tRef.payload := by
    intro n hn
    simp [verifyToken, hSig, hKind]
    omega
  have hmain : refreshToken (some tRef) ip ua now s =
      { result := .ok
          { sessionId := freshSessionId s.nextId
            accessToken := generateAccessToken
              { userId := u.id, email := u.email, role := u.role,
                sessionId := freshSessionId s.nextId } now
            refreshToken := generateRefreshToken
              { userId := u.id, email := u.email, role := u.role,
                sessionId := freshSessionId s.nextId } now }
        state :=
          { users := s.users
            store := sessionSetex (sessionDel s.store tRef.payload.sessionId)
              now (7 * 24 * 60 * 60) (freshSessionId s.nextId)
              { userId := u.id, createdAt := now, ip := ip, userAgent := ua }
            nextId := s.nextId + 1 }
        cookiesCleared := false } := by
    simp [refreshToken, hver now hExp, hSess, hUser, hAct]
  refine ⟨?_, ?_, ?_, ?_, ?_⟩
  · rw [hmain]
  · rw [hmain]
    simp only [sessionGet, sessionSetex, sessionDel]
    rw [lookup_setKey_ne _ _ _ _ hFresh, lookup_delKey_self]
  · rw [hmain]
    rfl
  · rw [hmain]
    simp only [sessionGet, sessionSetex, lookup_setKey_self]
    have hlt : now < now + 7 * 24 * 60 * 60 * 1000 := by omega
    simp [hlt]
  · rw [hmain]
    have hnone : sessionGet
        (sessionSetex (sessionDel s.store tRef.payload.sessionId)
          now (7 * 24 * 60 * 60) (freshSessionId s.nextId)
          { userId := u.id, createdAt := now, ip := ip, userAgent := ua })
        now2 tRef.payload.sessionId = none := by
      simp only [sessionGet, sessionSetex, sessionDel]
      rw [lookup_setKey_ne _ _ _ _ hFresh, lookup_delKey_self]
    simp [refreshToken, hver now2 hExp2, hnone]

/-- C1 witness: the amended rotation theorem applied to the concrete
fixture session. -/
theorem c1_witness :
    refreshTokenA.sigValid = true ∧
    refreshTokenA.kind = TokenKind.refresh ∧
    1000 < refreshTokenA.exp ∧
    2000 < refreshTokenA.exp ∧
    sessionGet sessAState.store 1000 refreshTokenA.payload.sessionId
      = some sessAData ∧
    findById sessAState.users refreshTokenA.payload.userId = some aliceUser ∧
    aliceUser.isActive = true ∧
    refreshTokenA.payload.sessionId ≠ freshSessionId sessAState.nextId ∧
    ((refreshToken (some refreshTokenA) "ip1" "ua1" 1000 sessAState).result
        = .ok
        { sessionId := freshSessionId sessAState.nextId
          accessToken := generateAccessToken
            { userId := aliceUser.id, email := aliceUser.email,
              role := aliceUser.role,
              sessionId := freshSessionId sessAState.nextId } 1000
          refreshToken := generateRefreshToken
            { userId := aliceUser.id, email := aliceUser.email,
              role := aliceUser.role,
              sessionId := freshSessionId sessAState.nextId } 1000 } ∧
      sessionGet
          (refreshToken (some refreshTokenA) "ip1" "ua1" 1000 sessAState).state.store
          1000 refreshTokenA.payload.sessionId = none ∧
      (refreshToken (some refreshTokenA) "ip1" "ua1" 1000 sessAState).state.store.blacklist
        = sessAState.store.blacklist ∧
      sessionGet
          (refreshToken (some refreshTokenA) "ip1" "ua1" 1000 sessAState).state.store
          1000 (freshSessionId sessAState.nextId) =
        some { userId := aliceUser.id, createdAt := 1000, ip := "ip1",
               userAgent := "ua1" } ∧
      (refreshToken (some refreshTokenA) "ip2" "ua2" 2000
          (refreshToken (some refreshTokenA) "ip1" "ua1" 1000 sessAState).state) =
        { result := .error (.appError
            { message := "Session expired", statusCode := 401,
              code := "SESSION_EXPIRED" })
          state :=
            (refreshToken (some refreshTokenA) "ip1" "ua1" 1000 sessAState).state
          cookiesCleared := true }) :=
  ⟨by decide, by decide, by decide, by decide, by decide, by decide,
   by decide, by decide,
   c1_refresh_rotation sessAState refreshTokenA sessAData aliceUser
     "ip1" "ua1" "ip2" "ua2" 1000 2000 (by decide) (by decide) (by decide)
     (by decide) (by decide) (by decide) (by decide) (by decide)⟩


/-! ## C2: what the authenticate middleware actually checks -/

/-- A valid access token whose embedded session id appears nowhere in the
Session Registry. -/
def strayAccessToken : Token :=
  { payload :=
      { userId := 1, email := "alice@example.com", role := "CUSTOMER",
        sessionId := "sessX" }
    kind := .access, exp := 1000000, sigValid := true }

/-- C2 counterexample. The claim states that authenticate accepts a
request only if the token session id is live in the Session Registry and
not blacklisted. In the fixture state the registry is empty, so the
session sessX is not live, yet authenticate accepts the request and
attaches the identity: the middleware never consults the registry. -/
theorem c2_counterexample :
    (authenticate (some strayAccessToken) none false false 1000 baseState).outcome
      = .ok () ∧
    (authenticate (some strayAccessToken) none false false 1000 baseState).reqUser
      = some { id := 1, email := "alice@example.com", role := "CUSTOMER" } ∧
    sessionGet baseState.store 1000 "sessX" = none ∧
    isSessionBlacklisted baseState.store 1000 "sessX" = false := by
  decide

/-- C2 (amended): the authenticate middleware accepts a cookie-borne
access token exactly when the token verifies, its session id is absent
from the Revocation Ledger, and the account exists, is active and is not
under a live lockout; the Session Registry is not consulted at all - the
middleware result is invariant under arbitrary changes to the sessions
store, so a token whose registry entry was deleted or expired is still
accepted until its own expiry as long as it is not blacklisted. -/
theorem c2_authenticate_checks (t : Token) (now : Nat) (s : AuthState)
    (sess1 sess2 : List (String × (SessionData × Nat))) :
    (((authenticate (some t) none false false now s).outcome = .ok ()) ↔
      (∃ p, verifyToken .access now t = .ok p ∧
        isSessionBlacklisted s.store now p.sessionId = false ∧
        ∃ u, findById s.users p.userId = some u ∧ u.isActive = true ∧
          isCurrentlyLocked u.lockedUntil now = false)) ∧
    authenticate (some t) none false false now
        { s with store := { s.store with sessions := sess1 } } =
      authenticate (some t) none false false now
        { s with store := { s.store with sessions := sess2 } } := by
  constructor
  · unfold authenticate
    cases hv : verifyToken .access now t with
    | error e => cases e <;> simp [hv]
    | ok p =>
      cases hbl : isSessionBlacklisted s.store now p.sessionId with
      | true => simp [hv, hbl]
      | false =>
        cases hu : findById s.users p.userId with
        | none => simp [hv, hbl, hu]
        | some user =>
          cases hact : user.isActive with
          | false => simp [hv, hbl, hu, hact]
          | true =>
            cases hlk : isCurrentlyLocked user.lockedUntil now with
            | true => simp [hv, hbl, hu, hact, hlk]
            | false => simp [hv, hbl, hu, hact, hlk]
  · rfl

/-! ## C3: lockout after the configured number of failed logins -/

/-- C3: starting from a fresh active account (zero failed attempts, no
lock), five consecutive wrong-password logins (five equals
passwordConfig.maxLoginAttempts) leave the account in the exact state
failedStateAfter with the counter at five and the lockout expiry set to
now plus passwordConfig.lockoutDuration, while after only four attempts
the account is not yet locked; and while the expiry has not elapsed, any
further attempt that passes the per-key rate-limit gate - with any
password, including the correct one - is rejected with the
ACCOUNT_LOCKED error and performs no password-hash comparison at all
(the lock check precedes password evaluation). -/
theorem c3_lockout_after_max_failures (u : User)
    (wrongPw pw2 ip ip2 ua ua2 : String) (rm2 : Bool) (now t2 : Nat)
    (hA : u.isActive = true) (hC0 : u.failedLoginAttempts = 0)
    (hL0 : u.lockedUntil = none)
    (hW : bcryptCompare wrongPw u.passwordHash = false)
    (ht2 : t2 < now + passwordConfig.lockoutDuration)
    (hRate2 : rateCount (failedStateAfter u ip now 5).store t2
        (rateLimitKeyLogin ip2 u.email) + 1 ≤ 5) :
    iterLoginState u.email wrongPw ip ua now 5
        { users := [u], store := Store.empty, nextId := 0 } =
      failedStateAfter u ip now 5 ∧
    iterLoginState u.email wrongPw ip ua now 4
        { users := [u], store := Store.empty, nextId := 0 } =
      failedStateAfter u ip now 4 ∧
    (failedUserAfter u now 4).lockedUntil = none ∧
    findByEmail (failedStateAfter u ip now 5).users u.email =
      some (failedUserAfter u now 5) ∧
    (failedUserAfter u now 5).lockedUntil =
      some (now + passwordConfig.lockoutDuration) ∧
    (failedUserAfter u now 5).failedLoginAttempts = 5 ∧
    (login u.email pw2 rm2 ip2 ua2 t2 (failedStateAfter u ip now 5)).result =
      .error { message := "Account is temporarily locked. Please try again later."
               statusCode := 403, code := "ACCOUNT_LOCKED" } ∧
    (login u.email pw2 rm2 ip2 ua2 t2 (failedStateAfter u ip now 5)).compares
      = [] := by
  have h0 := failedStateAfter_zero u ip now hC0 hL0
  have hiter := iterLoginState_wrong u wrongPw ip ua now hA hW 5 0 (by omega)
  have hiter4 := iterLoginState_wrong u wrongPw ip ua now hA hW 4 0 (by omega)
  rw [h0] at hiter hiter4
  have hfind5 : findByEmail (failedStateAfter u ip now 5).users
      ((failedUserAfter u now 5).email) = some (failedUserAfter u now 5) := by
    simp [failedStateAfter, failedUserAfter, findByEmail, List.find?]
  have hLock5 : isCurrentlyLocked (failedUserAfter u now 5).lockedUntil t2
      = true := by
    simp [failedUserAfter, isCurrentlyLocked, passwordConfig]
    simpa [passwordConfig] using ht2
  have hlocked := login_locked_rejected pw2 rm2 ip2 ua2 t2
    (failedStateAfter u ip now 5) (failedUserAfter u now 5)
    hfind5 hLock5 hRate2
  rw [show (failedUserAfter u now 5).email = u.email from rfl] at hlocked
  refine ⟨hiter, hiter4, ?_, ?_, ?_, ?_, ?_, ?_⟩
  · simp [failedUserAfter, passwordConfig]
  · simpa using hfind5
  · simp [failedUserAfter, passwordConfig]
  · simp [failedUserAfter]
  · rw [hlocked]
  · rw [hlocked]

/-- C3 witness: the lockout theorem applied to the fixture account with a
wrong password, a later correct-password attempt from a different client
at t2 = 2000 inside the lockout window. -/
theorem c3_witness :
    aliceUser.isActive = true ∧
    aliceUser.failedLoginAttempts = 0 ∧
    aliceUser.lockedUntil = none ∧
    bcryptCompare "wrongpass" aliceUser.passwordHash = false ∧
    2000 < 1000 + passwordConfig.lockoutDuration ∧
    rateCount (failedStateAfter aliceUser "ip1" 1000 5).store 2000
        (rateLimitKeyLogin "ip2" aliceUser.email) + 1 ≤ 5 ∧
    (iterLoginState aliceUser.email "wrongpass" "ip1" "ua1" 1000 5
        { users := [aliceUser], store := Store.empty, nextId := 0 } =
      failedStateAfter aliceUser "ip1" 1000 5 ∧
    iterLoginState aliceUser.email "wrongpass" "ip1" "ua1" 1000 4
        { users := [aliceUser], store := Store.empty, nextId := 0 } =
      failedStateAfter aliceUser "ip1" 1000 4 ∧
    (failedUserAfter aliceUser 1000 4).lockedUntil = none ∧
    findByEmail (failedStateAfter aliceUser "ip1" 1000 5).users aliceUser.email =
      some (failedUserAfter aliceUser 1000 5) ∧
    (failedUserAfter aliceUser 1000 5).lockedUntil =
      some (1000 + passwordConfig.lockoutDuration) ∧
    (failedUserAfter aliceUser 1000 5).failedLoginAttempts = 5 ∧
    (login aliceUser.email "CorrectHorse9" true "ip2" "ua2" 2000
        (failedStateAfter aliceUser "ip1" 1000 5)).result =
      .error { message := "Account is temporarily locked. Please try again later."
               statusCode := 403, code := "ACCOUNT_LOCKED" } ∧
    (login aliceUser.email "CorrectHorse9" true "ip2" "ua2" 2000
        (failedStateAfter aliceUser "ip1" 1000 5)).compares = []) :=
  ⟨by decide, by decide, by decide, by decide, by decide, by decide,
   c3_lockout_after_max_failures aliceUser "wrongpass" "CorrectHorse9"
     "ip1" "ip2" "ua1" "ua2" true 1000 2000 (by decide) (by decide)
     (by decide) (by decide) (by decide) (by decide)⟩


/-! ## C4: behaviour of an attempt made after the lockout expiry -/

/-- The fixture account as it stands right after a lockout whose expiry
(timestamp 1000) has already elapsed at attempt time 5000. -/
def expiredLockUser : User :=
  { aliceUser with failedLoginAttempts := 5, lockedUntil := some 1000 }

def expiredLockState : AuthState :=
  { users := [expiredLockUser], store := Store.empty, nextId := 0 }

/-- C4 counterexample. The claim states that an attempt made after the
lockout expiry resets the counter and lock state before evaluating the
password, so a wrong-password attempt leaves the counter at 1 and does not
immediately re-lock. On the code, a wrong-password attempt at time 5000
against the account whose lock expired at 1000 evaluates the password
(one bcrypt comparison is performed), increments the retained counter from
5 to 6 - not to 1 - and immediately re-locks the account until
5000 + lockoutDuration = 1805000. -/
theorem c4_counterexample :
    ((findByEmail (login "alice@example.com" "wrongpass" false "ip1" "ua1"
         5000 expiredLockState).state.users "alice@example.com").map
      (fun v => (v.failedLoginAttempts, v.lockedUntil)))
      = some (6, some 1805000) ∧
    (login "alice@example.com" "wrongpass" false "ip1" "ua1" 5000
        expiredLockState).result = .error genericLoginError ∧
    (login "alice@example.com" "wrongpass" false "ip1" "ua1" 5000
        expiredLockState).compares
      = [("wrongpass", aliceUser.passwordHash)] ∧
    (6 : Nat) ≠ 1 := by
  decide

/-- C4 (amended): once the lockout expiry has elapsed, the lock check
falls through but nothing is reset before the password is evaluated: a
wrong-password attempt performs the bcrypt comparison, fails with the
generic credential error, increments the counter from its retained
pre-lockout value (to failedLoginAttempts + 1, not to 1) and, whenever
that reaches the configured maximum again - which it always does after a
full lockout - immediately re-locks the account until now plus
lockoutDuration. Only a successful login resets the counter. -/
theorem c4_no_reset_after_expiry (s : AuthState) (u : User)
    (pw ip ua : String) (rm : Bool) (now e : Nat)
    (hfind : findByEmail s.users u.email = some u)
    (hL : u.lockedUntil = some e) (hE : e ≤ now)
    (hA : u.isActive = true)
    (hW : bcryptCompare pw u.passwordHash = false)
    (hRate : rateCount s.store now (rateLimitKeyLogin ip u.email) + 1 ≤ 5) :
    (login u.email pw rm ip ua now s).result = .error genericLoginError ∧
    (login u.email pw rm ip ua now s).compares = [(pw, u.passwordHash)] ∧
    (login u.email pw rm ip ua now s).state.users =
      updateUser s.users u.id (fun v =>
        { v with
          failedLoginAttempts := u.failedLoginAttempts + 1
          lockedUntil :=
            if u.failedLoginAttempts + 1 ≥ passwordConfig.maxLoginAttempts
            then some (now + passwordConfig.lockoutDuration) else none }) := by
  have hLock : isCurrentlyLocked u.lockedUntil now = false := by
    simp [isCurrentlyLocked, hL]
    omega
  rw [login_wrong_password pw rm ip ua now s u hfind hLock hA hW hRate]
  exact ⟨rfl, rfl, rfl⟩

/-- C4 witness: the amended theorem applied to the expired-lock fixture
account at time 5000. -/
theorem c4_witness :
    findByEmail [expiredLockUser] expiredLockUser.email
      = some expiredLockUser ∧
    expiredLockUser.lockedUntil = some 1000 ∧
    1000 ≤ 5000 ∧
    expiredLockUser.isActive = true ∧
    bcryptCompare "wrongpass" expiredLockUser.passwordHash = false ∧
    rateCount Store.empty 5000
        (rateLimitKeyLogin "ip1" expiredLockUser.email) + 1 ≤ 5 ∧
    ((login expiredLockUser.email "wrongpass" false "ip1" "ua1" 5000
        expiredLockState).result = .error genericLoginError ∧
    (login expiredLockUser.email "wrongpass" false "ip1" "ua1" 5000
        expiredLockState).compares
      = [("wrongpass", expiredLockUser.passwordHash)] ∧
    (login expiredLockUser.email "wrongpass" false "ip1" "ua1" 5000
        expiredLockState).state.users =
      updateUser [expiredLockUser] expiredLockUser.id (fun v =>
        { v with
          failedLoginAttempts := expiredLockUser.failedLoginAttempts + 1
          lockedUntil :=
            if expiredLockUser.failedLoginAttempts + 1
                ≥ passwordConfig.maxLoginAttempts
            then some (5000 + passwordConfig.lockoutDuration)
            else none })) :=
  ⟨by decide, by decide, by decide, by decide, by decide, by decide,
   c4_no_reset_after_expiry
     { users := [expiredLockUser], store := Store.empty, nextId := 0 }
     expiredLockUser "wrongpass" "ip1" "ua1" false 5000 1000
     (by decide) (by decide) (by decide) (by decide) (by decide) (by decide)⟩

/-! ## C5: logout revokes the still-valid access token -/

/-- C5: when logout can verify the refresh cookie it blacklists the
embedded session id; a subsequent authenticated request carrying the
previously issued access token for that session - still inside the token
own expiry window, and inside the 7-day blacklist ttl - is rejected by
the authenticate middleware through the Revocation Ledger check that runs
on every authenticated request, with the blacklist rejection (the code
renders the taxonomy SessionRevoked as AppError code SESSION_EXPIRED,
message Session expired. Please log in again.), and the rejection clears
the client auth cookies. -/
theorem c5_logout_revokes_access (s : AuthState) (tRef tAcc : Token)
    (nowL nowA : Nat)
    (hSigR : tRef.sigValid = true) (hKindR : tRef.kind = .refresh)
    (hExpR : nowL < tRef.exp)
    (hSigA : tAcc.sigValid = true) (hKindA : tAcc.kind = .access)
    (hExpA : nowA < tAcc.exp)
    (hSameSession : tAcc.payload.sessionId = tRef.payload.sessionId)
    (hWindow : nowA < nowL + 7 * 24 * 60 * 60 * 1000) :
    isSessionBlacklisted (logout (some tRef) nowL s).1.store nowA
        tRef.payload.sessionId = true ∧
    authenticate (some tAcc) none false false nowA (logout (some tRef) nowL s).1
      = { outcome := .error (.appError
            { message := "Session expired. Please log in again."
              statusCode := 401, code := "SESSION_EXPIRED" })
          reqUser := none, cookiesCleared := true } := by
  have hver : verifyToken .refresh nowL tRef = .ok tRef.payload := by
    simp [verifyToken, hSigR, hKindR]
    omega
  have hverA : verifyToken .access nowA tAcc = .ok tAcc.payload := by
    simp [verifyToken, hSigA, hKindA]
    omega
  have hlogout : (logout (some tRef) nowL s).1 =
      { s with store :=
          (sessionDel (blacklistSession s.store nowL tRef.payload.sessionId
            (7 * 24 * 60 * 60)) tRef.payload.sessionId) } := by
    simp [logout, hver]
  have hbl : isSessionBlacklisted (logout (some tRef) nowL s).1.store nowA
      tRef.payload.sessionId = true := by
    rw [hlogout]
    simp [isSessionBlacklisted, sessionDel, blacklistSession,
      lookup_setKey_self]
    omega
  refine ⟨hbl, ?_⟩
  simp [authenticate, hverA, hSameSession, hbl]

/-- C5 witness: logout with the fixture refresh token at time 1000, then
an authenticated request with the matching access token at time 2000. -/
theorem c5_witness :
    refreshTokenA.sigValid = true ∧
    refreshTokenA.kind = TokenKind.refresh ∧
    1000 < refreshTokenA.exp ∧
    accessTokenA.sigValid = true ∧
    accessTokenA.kind = TokenKind.access ∧
    2000 < accessTokenA.exp ∧
    accessTokenA.payload.sessionId = refreshTokenA.payload.sessionId ∧
    2000 < 1000 + 7 * 24 * 60 * 60 * 1000 ∧
    (isSessionBlacklisted (logout (some refreshTokenA) 1000 sessAState).1.store
        2000 refreshTokenA.payload.sessionId = true ∧
    authenticate (some accessTokenA) none false false 2000
        (logout (some refreshTokenA) 1000 sessAState).1
      = { outcome := .error (.appError
            { message := "Session expired. Please log in again."
              statusCode := 401, code := "SESSION_EXPIRED" })
          reqUser := none, cookiesCleared := true }) :=
  ⟨by decide, by decide, by decide, by decide, by decide, by decide,
   by decide, by decide,
   c5_logout_revokes_access sessAState refreshTokenA accessTokenA 1000 2000
     (by decide) (by decide) (by decide) (by decide) (by decide) (by decide)
     (by decide) (by decide)⟩


/-! ## C6: rate limiter semantics and the login gate -/

/-- C6: checkRateLimit increments the counter for the key and answers
allowed exactly when the post-increment count is at most maxAttempts,
with remaining equal to maxAttempts minus the count truncated at zero
(Nat subtraction); consequently, with max 5 and a 900-second window, any
six login attempts against one (ip, email) key at one instant - with
arbitrary user table and arbitrary passwords, correct or not - have their
first five attempts pass the rate-limit gate (none of them is the
RATE_LIMITED rejection; they may still fail for credential reasons) while
the sixth is rejected with RATE_LIMITED before any credential is
examined: it performs no password comparison and leaves the user table
untouched. -/
theorem c6_rate_limiter_semantics (st : Store) (nowA : Nat) (keyA : String)
    (m w : Nat) (users : List User) (nid : Nat)
    (emailArg p1 p2 p3 p4 p5 p6 ip ua : String) (now : Nat) :
    (checkRateLimit st nowA keyA m w).1.allowed
        = decide (rateCount st nowA keyA + 1 ≤ m) ∧
    (checkRateLimit st nowA keyA m w).1.remaining
        = m - (rateCount st nowA keyA + 1) ∧
    lookup (checkRateLimit st nowA keyA m w).2.rate keyA
        = some (rateCount st nowA keyA + 1,
                some (rateNewExpiry st nowA keyA w)) ∧
    (login emailArg p1 false ip ua now
        (loginChain emailArg ip ua now []
          { users := users, store := Store.empty, nextId := nid })).result
      ≠ .error rateLimitedError ∧
    (login emailArg p2 false ip ua now
        (loginChain emailArg ip ua now [p1]
          { users := users, store := Store.empty, nextId := nid })).result
      ≠ .error rateLimitedError ∧
    (login emailArg p3 false ip ua now
        (loginChain emailArg ip ua now [p1, p2]
          { users := users, store := Store.empty, nextId := nid })).result
      ≠ .error rateLimitedError ∧
    (login emailArg p4 false ip ua now
        (loginChain emailArg ip ua now [p1, p2, p3]
          { users := users, store := Store.empty, nextId := nid })).result
      ≠ .error rateLimitedError ∧
    (login emailArg p5 false ip ua now
        (loginChain emailArg ip ua now [p1, p2, p3, p4]
          { users := users, store := Store.empty, nextId := nid })).result
      ≠ .error rateLimitedError ∧
    (login emailArg p6 false ip ua now
        (loginChain emailArg ip ua now [p1, p2, p3, p4, p5]
          { users := users, store := Store.empty, nextId := nid })).result
      = .error rateLimitedError ∧
    (login emailArg p6 false ip ua now
        (loginChain emailArg ip ua now [p1, p2, p3, p4, p5]
          { users := users, store := Store.empty, nextId := nid })).compares
      = [] ∧
    (login emailArg p6 false ip ua now
        (loginChain emailArg ip ua now [p1, p2, p3, p4, p5]
          { users := users, store := Store.empty, nextId := nid })).state.users
      = (loginChain emailArg ip ua now [p1, p2, p3, p4, p5]
          { users := users, store := Store.empty, nextId := nid }).users := by
  have hbase : rateCount Store.empty now (rateLimitKeyLogin ip emailArg)
      = 0 := rfl
  refine ⟨?_, ?_, ?_, ?_, ?_, ?_, ?_, ?_, ?_, ?_, ?_⟩
  · rfl
  · rfl
  · simp [checkRateLimit, lookup_setKey_self]
  · exact login_not_ratelimited emailArg p1 false ip ua now _
      (by rw [rateCount_loginChain]; simp [hbase])
  · exact login_not_ratelimited emailArg p2 false ip ua now _
      (by rw [rateCount_loginChain]; simp [hbase])
  · exact login_not_ratelimited emailArg p3 false ip ua now _
      (by rw [rateCount_loginChain]; simp [hbase])
  · exact login_not_ratelimited emailArg p4 false ip ua now _
      (by rw [rateCount_loginChain]; simp [hbase])
  · exact login_not_ratelimited emailArg p5 false ip ua now _
      (by rw [rateCount_loginChain]; simp [hbase])
  · rw [login_rate_rejected emailArg p6 false ip ua now _
      (by rw [rateCount_loginChain]; simp [hbase])]
  · rw [login_rate_rejected emailArg p6 false ip ua now _
      (by rw [rateCount_loginChain]; simp [hbase])]
  · rw [login_rate_rejected emailArg p6 false ip ua now _
      (by rw [rateCount_loginChain]; simp [hbase])]

/-! ## C7: account-enumeration resistance of login -/

/-- C7: against one and the same state, a login with an email that
matches no account and a login with the email of an existing active,
unlocked account but a wrong password both fail with the one generic
credential error - the identical AppError record (message Invalid email
or password, status 401, code INVALID_CREDENTIALS) - and each path
performs exactly one bcrypt comparison: the unknown-email path compares
against the constant dummy hash before failing, the wrong-password path
against the stored hash, keeping the two externally equivalent in cost
and response. -/
theorem c7_enumeration_resistance (s : AuthState) (e1 : String) (u : User)
    (pw1 pw2 ip1 ip2 ua1 ua2 : String) (rm1 rm2 : Bool) (now1 now2 : Nat)
    (h1 : findByEmail s.users e1 = none)
    (hR1 : rateCount s.store now1 (rateLimitKeyLogin ip1 e1) + 1 ≤ 5)
    (hfind : findByEmail s.users u.email = some u)
    (hLock : isCurrentlyLocked u.lockedUntil now2 = false)
    (hA : u.isActive = true)
    (hW : bcryptCompare pw2 u.passwordHash = false)
    (hR2 : rateCount s.store now2 (rateLimitKeyLogin ip2 u.email) + 1 ≤ 5) :
    (login e1 pw1 rm1 ip1 ua1 now1 s).result = .error genericLoginError ∧
    (login u.email pw2 rm2 ip2 ua2 now2 s).result
      = .error genericLoginError ∧
    (login e1 pw1 rm1 ip1 ua1 now1 s).compares = [(pw1, dummyHash)] ∧
    (login u.email pw2 rm2 ip2 ua2 now2 s).compares
      = [(pw2, u.passwordHash)] := by
  rw [login_unknown_email e1 pw1 rm1 ip1 ua1 now1 s h1 hR1,
    login_wrong_password pw2 rm2 ip2 ua2 now2 s u hfind hLock hA hW hR2]
  exact ⟨rfl, rfl, rfl, rfl⟩

/-- C7 witness: an unknown email and a wrong password against the fixture
account in the fixture state. -/
theorem c7_witness :
    findByEmail baseState.users "nobody@example.com" = none ∧
    rateCount baseState.store 1000
        (rateLimitKeyLogin "ip1" "nobody@example.com") + 1 ≤ 5 ∧
    findByEmail baseState.users aliceUser.email = some aliceUser ∧
    isCurrentlyLocked aliceUser.lockedUntil 1000 = false ∧
    aliceUser.isActive = true ∧
    bcryptCompare "badpass" aliceUser.passwordHash = false ∧
    rateCount baseState.store 1000
        (rateLimitKeyLogin "ip2" aliceUser.email) + 1 ≤ 5 ∧
    ((login "nobody@example.com" "anypw" false "ip1" "ua1" 1000
        baseState).result = .error genericLoginError ∧
    (login aliceUser.email "badpass" false "ip2" "ua2" 1000
        baseState).result = .error genericLoginError ∧
    (login "nobody@example.com" "anypw" false "ip1" "ua1" 1000
        baseState).compares = [("anypw", dummyHash)] ∧
    (login aliceUser.email "badpass" false "ip2" "ua2" 1000
        baseState).compares = [("badpass", aliceUser.passwordHash)]) :=
  ⟨by decide, by decide, by decide, by decide, by decide, by decide,
   by decide,
   c7_enumeration_resistance baseState "nobody@example.com" aliceUser
     "anypw" "badpass" "ip1" "ip2" "ua1" "ua2" false false 1000 1000
     (by decide) (by decide) (by decide) (by decide) (by decide) (by decide)
     (by decide)⟩

/-! ## C8: a correct password resets the counter -/

/-- C8: whenever the account is found, is active and is not under a live
lock (either never locked or the expiry has elapsed), a correct-password
login succeeds at every failed-attempt count and leaves the stored
account with failedLoginAttempts zero and lockedUntil cleared, issuing
the new session and token pair. The invariant hypothesis (a zero counter
entails no lockout timestamp) holds of every state the login state
machine itself produces, since the lock is only ever set together with a
maximal counter and the reset clears both. -/
theorem c8_success_resets_counter (s : AuthState) (u : User)
    (pw ip ua : String) (rm : Bool) (now : Nat)
    (hfind : findByEmail s.users u.email = some u)
    (hLock : isCurrentlyLocked u.lockedUntil now = false)
    (hA : u.isActive = true)
    (hW : bcryptCompare pw u.passwordHash = true)
    (hInv : u.failedLoginAttempts = 0 → u.lockedUntil = none)
    (hRate : rateCount s.store now (rateLimitKeyLogin ip u.email) + 1 ≤ 5) :
    (login u.email pw rm ip ua now s).result = .ok
      { userId := u.id, email := u.email, role := u.role
        sessionId := freshSessionId s.nextId
        accessToken := generateAccessToken
          { userId := u.id, email := u.email, role := u.role,
            sessionId := freshSessionId s.nextId } now
        refreshToken := generateRefreshToken
          { userId := u.id, email := u.email, role := u.role,
            sessionId := freshSessionId s.nextId } now } ∧
    ((findByEmail (login u.email pw rm ip ua now s).state.users u.email).map
        (fun v => (v.failedLoginAttempts, v.lockedUntil))) = some (0, none) ∧
    sessionGet (login u.email pw rm ip ua now s).state.store now
        (freshSessionId s.nextId) =
      some { userId := u.id, createdAt := now, ip := ip, userAgent := ua } := by
  rw [login_success pw rm ip ua now s u hfind hLock hA hW hRate]
  refine ⟨rfl, ?_, ?_⟩
  · by_cases hfa : u.failedLoginAttempts > 0
    · simp only [hfa, if_true]
      rw [findByEmail_updateUser _ u.id
        (fun v => { v with lastLoginAt := some now }) (fun v => rfl),
        findByEmail_updateUser _ u.id
        (fun v => { v with failedLoginAttempts := 0, lockedUntil := none })
        (fun v => rfl), hfind]
      simp
    · have h0 : u.failedLoginAttempts = 0 := by omega
      simp only [hfa, if_false]
      rw [findByEmail_updateUser _ u.id
        (fun v => { v with lastLoginAt := some now }) (fun v => rfl), hfind]
      simp [h0, hInv h0]
  · simp only [sessionGet, sessionSetex, lookup_setKey_self]
    have h1 : 0 < (if rm then 30 * 24 * 60 * 60 else 24 * 60 * 60) * 1000 := by
      cases rm <;> norm_num
    have hlt : now < now +
        (if rm then 30 * 24 * 60 * 60 else 24 * 60 * 60) * 1000 := by
      omega
    simp only [hlt, if_true]

/-- C8 witness: a correct password at counter five right after the
lockout expiry elapsed (time 5000, expiry 1000). -/
theorem c8_witness :
    findByEmail expiredLockState.users expiredLockUser.email
      = some expiredLockUser ∧
    isCurrentlyLocked expiredLockUser.lockedUntil 5000 = false ∧
    expiredLockUser.isActive = true ∧
    bcryptCompare "CorrectHorse9" expiredLockUser.passwordHash = true ∧
    (expiredLockUser.failedLoginAttempts = 0 →
      expiredLockUser.lockedUntil = none) ∧
    rateCount expiredLockState.store 5000
        (rateLimitKeyLogin "ip1" expiredLockUser.email) + 1 ≤ 5 ∧
    ((login expiredLockUser.email "CorrectHorse9" false "ip1" "ua1" 5000
        expiredLockState).result = .ok
      { userId := expiredLockUser.id, email := expiredLockUser.email
        role := expiredLockUser.role
        sessionId := freshSessionId expiredLockState.nextId
        accessToken := generateAccessToken
          { userId := expiredLockUser.id, email := expiredLockUser.email,
            role := expiredLockUser.role,
            sessionId := freshSessionId expiredLockState.nextId } 5000
        refreshToken := generateRefreshToken
          { userId := expiredLockUser.id, email := expiredLockUser.email,
            role := expiredLockUser.role,
            sessionId := freshSessionId expiredLockState.nextId } 5000 } ∧
    ((findByEmail (login expiredLockUser.email "CorrectHorse9" false "ip1"
          "ua1" 5000 expiredLockState).state.users expiredLockUser.email).map
        (fun v => (v.failedLoginAttempts, v.lockedUntil))) = some (0, none) ∧
    sessionGet (login expiredLockUser.email "CorrectHorse9" false "ip1" "ua1"
          5000 expiredLockState).state.store 5000
        (freshSessionId expiredLockState.nextId) =
      some { userId := expiredLockUser.id, createdAt := 5000, ip := "ip1",
             userAgent := "ua1" }) :=
  ⟨by decide, by decide, by decide, by decide, by decide, by decide,
   c8_success_resets_counter expiredLockState expiredLockUser
     "CorrectHorse9" "ip1" "ua1" false 5000
     (by decide) (by decide) (by decide) (by decide) (by decide) (by decide)⟩


/-! ## C9: concurrency of the lockout counter -/

/-- C9 counterexample. The claim states that the counter
increment-then-compare is atomic (an atomic increment-and-fetch on the
shared store) so that K greater than max simultaneous wrong-password
requests yield exactly one Active-to-Locked transition with no lost
updates. The login handler actually reads the row with findUnique and
writes back a counter computed in application code, so in the fully
overlapped interleaving of six wrong-password requests - all six reads
before any write - every request observes counter zero: the final counter
is 1 (five increments lost) and the account is never locked (zero
Active-to-Locked transitions, not exactly one). -/
theorem c9_counterexample :
    (Conc.run 0 Conc.initState (Conc.overlappedSched 6)).db.failedLoginAttempts
      = 1 ∧
    (Conc.run 0 Conc.initState (Conc.overlappedSched 6)).db.lockedUntil
      = none ∧
    (1 : Nat) ≠ 6 := by
  decide

/-- C9 (amended): the wrong-password branch updates the counter by
application-level read-modify-write, not by an atomic store increment, so
overlapped interleavings can lose updates and need not lock at all; the
claimed outcome holds exactly for serialized execution: running K
wrong-password requests one after another from a fresh account leaves the
counter at min K 5 (which never exceeds K, with no double-counting) and
the account locked if and only if K has reached the maximum of five, the
lockout expiry being set to now plus lockoutDuration by that single
transition and later rejected attempts leaving the row untouched. -/
theorem c9_serialized_lockout (now K : Nat) :
    (Conc.run now Conc.initState (Conc.serialSched K)).db.failedLoginAttempts
      = min K 5 ∧
    min K 5 ≤ K ∧
    (Conc.run now Conc.initState (Conc.serialSched K)).db.lockedUntil
      = (if 5 ≤ K then some (now + passwordConfig.lockoutDuration)
         else none) := by
  have h := conc_serial_run now K
  refine ⟨?_, ?_, ?_⟩
  · rw [h]
  · omega
  · rw [h]

/-! ## C10: optionalAuth never rejects -/

/-- C10: the optionalAuth middleware passes control to the next handler
with no error on every input - no token, a malformed or expired token, a
blacklisted session, a missing or inactive account, or an injected store
error at either lookup - and it attaches an identity to the request
context only when the cookie access token verifies, no store fault
occurred, the session is not blacklisted, and the account exists and is
active, in which case the attached identity is exactly the account id,
email and role. -/
theorem c10_optional_auth_never_rejects (cookieToken : Option Token)
    (redisFault dbFault : Bool) (now : Nat) (s : AuthState) :
    (optionalAuth cookieToken redisFault dbFault now s).outcome = .ok () ∧
    ((optionalAuth cookieToken redisFault dbFault now s).reqUser ≠ none →
      ∃ t p u, cookieToken = some t ∧
        verifyToken .access now t = .ok p ∧
        redisFault = false ∧
        isSessionBlacklisted s.store now p.sessionId = false ∧
        dbFault = false ∧
        findById s.users p.userId = some u ∧
        u.isActive = true ∧
        (optionalAuth cookieToken redisFault dbFault now s).reqUser =
          some { id := u.id, email := u.email, role := u.role }) := by
  unfold optionalAuth
  cases cookieToken with
  | none => simp
  | some t =>
    cases hv : verifyToken .access now t with
    | error e => simp [hv]
    | ok p =>
      cases hrf : redisFault with
      | true => simp [hv]
      | false =>
        cases hbl : isSessionBlacklisted s.store now p.sessionId with
        | true => simp [hv, hbl]
        | false =>
          cases hdf : dbFault with
          | true => simp [hv, hbl]
          | false =>
            cases hu : findById s.users p.userId with
            | none => simp [hv, hbl, hu]
            | some user =>
              cases hact : user.isActive with
              | false => simp [hv, hbl, hu, hact]
              | true =>
                simp only [hv, hbl, hu, hact, Bool.false_eq_true, if_false,
                  if_true]
                refine ⟨by simp, fun _ =>
                  ⟨t, p, user, by simp, hv, by simp, hbl, by simp, hu, hact,
                   by simp⟩⟩


end SecureShop
